import Mathlib

/-!
Verification of the leeway drift model (models/leeway.py).

The development shallowly embeds the parts of models/leeway.py that the
claims are about: the object-property table parser in Leeway.__init__,
the coefficient sampling and release-geometry interpolation in
Leeway.seed_leeway, and the per-timestep pipeline in Leeway.update.
Machine reals are modelled by the rationals (exact field arithmetic);
the trigonometric rotation step is modelled over the real numbers.
Python exceptions are modelled by an explicit error type, and Python
name/attribute resolution failures are modelled by membership in the
lists of names that the source actually binds.
-/

namespace Leeway

/-- Python exception kinds that the embedded code can surface, plus the
constructor propertyTableParseError, which stands for the error class the
specification names; the code base never defines or raises it. -/
inductive PyErr where
  | indexError
  | valueError
  | nameError
  | attributeError
  | zeroDivisionError
  | propertyTableParseError
  deriving DecidableEq, Repr

/-- The two drift-orientation constants of models/leeway.py:
RIGHT = 0 and LEFT = 1. -/
inductive Orient where
  | RIGHT
  | LEFT
  deriving DecidableEq, Repr

/-- The raw numeric encoding of the orientation constants in the source:
RIGHT = 0, LEFT = 1. -/
def orientValue : Orient → ℚ
  | Orient.RIGHT => 0
  | Orient.LEFT => 1

/-- The signed convention stated by the specification for the crosswind
computation: RIGHT maps to +1 and LEFT maps to -1.  This definition
follows the words of the spec, for comparison against the source. -/
def orientSignSpec : Orient → ℚ
  | Orient.RIGHT => 1
  | Orient.LEFT => -1

/-- Crosswind leeway speed exactly as Leeway.update computes it:
cwl_leeway = orientation * (crosswindLeeway * windspeed + crosswindOffset).
The first factor is the raw orientation value (0 or 1), not a sign.
The attribute read in the source is named crosswindLeeway; the element
class only defines crosswindSlope, so the parameter here carries the
value that read was intended to produce. -/
def cwl_leeway (orientation crosswindLeeway windspeed crosswindOffset : ℚ) : ℚ :=
  orientation * (crosswindLeeway * windspeed + crosswindOffset)

/-- Crosswind leeway speed as the specification words it:
orientation_sign * (crosswindSlope * windspeed + crosswindOffset). -/
def cwl_spec (o : Orient) (crosswindSlope windspeed crosswindOffset : ℚ) : ℚ :=
  orientSignSpec o * (crosswindSlope * windspeed + crosswindOffset)

/-- Downwind leeway speed as Leeway.update words it once both of the
attribute reads epsilon and downwindEpsilon are bound to the element
field downwindEps (the only epsilon-like field the element class has):
(downwindSlope + eps/20) * windspeed + downwindOffset + eps/2. -/
def dwl_leeway (downwindSlope downwindEps windspeed downwindOffset : ℚ) : ℚ :=
  (downwindSlope + downwindEps / 20) * windspeed + downwindOffset + downwindEps / 2

/-- Release times of seed_leeway, lines 193-194 of models/leeway.py:
dt = (time1 - time) / (number - 1); times = [time + i * dt for i in range(number)].
Times are rational seconds since an epoch.  Python evaluates the quotient
eagerly, so number = 1 divides the timedelta by zero. -/
def seedTimes (time time1 : ℚ) (number : ℕ) : Except PyErr (List ℚ) :=
  if (number : ℤ) - 1 = 0 then Except.error PyErr.zeroDivisionError
  else
    let dt := (time1 - time) / ((number : ℚ) - 1)
    Except.ok ((List.range number).map fun i => time + (i : ℚ) * dt)

/-- Names bound by assignment (or as loop variables) in the body of
Leeway.seed_leeway, read off the source: parameters first, then the
local assignments in program order.  The subscript assignments to
crosswindSlope, crosswindOffset and crosswindEps are not bindings
(they require the name to exist already), so those names are absent. -/
def seedLeewayBoundNames : List String :=
  ["self", "lon", "lat", "radius", "number", "time", "radius1", "lon1",
   "lat1", "time1", "objectType", "pjibe", "reader", "firstReader",
   "orientation", "downwindSlope", "downwindOffset", "dwstd", "rdw",
   "epsdw", "i", "downwindEps", "rcw", "jibeProbability", "geod",
   "clonlats", "clons", "clats", "radii", "dt", "times"]

/-- Names bound at module level in models/leeway.py: the imports and the
top-level definitions. -/
def leewayModuleNames : List String :=
  ["os", "np", "datetime", "OpenDriftSimulation", "LagrangianArray",
   "OrderedDict", "RIGHT", "LEFT", "LeewayObj", "Leeway"]

/-- The class names defined anywhere in models/leeway.py. -/
def leewayClassNames : List String := ["LeewayObj", "Leeway"]

/-- The element variables that LeewayObj.add_variables declares in the
source (lines 17-48 of models/leeway.py). -/
def leewayObjVariableNames : List String :=
  ["objectType", "orientation", "jibeProbability", "downwindSlope",
   "crosswindSlope", "downwindOffset", "crosswindOffset", "downwindEps",
   "crosswindEps", "age_seconds"]

/-- Modelled from the spec: the base variables that the external
LagrangianArray class (not under src/) contributes to every element,
per the Particle data model of the spec: position (lon, lat) and status. -/
def lagrangianBaseVariableNames : List String := ["lon", "lat", "status"]

/-- All element attribute names available on a LeewayObj ensemble. -/
def allElementVariableNames : List String :=
  leewayObjVariableNames ++ lagrangianBaseVariableNames

/-- The element attributes that the downwind-speed expression of
Leeway.update reads (line 214-215 of the source):
downwindSlope, epsilon, downwindOffset, downwindEpsilon. -/
def updateDownwindAttrNames : List String :=
  ["downwindSlope", "epsilon", "downwindOffset", "downwindEpsilon"]

/-- The element attributes that the crosswind-speed expression of
Leeway.update reads (lines 216-218 of the source):
orientation, crosswindLeeway, crosswindOffset. -/
def updateCrosswindAttrNames : List String :=
  ["orientation", "crosswindLeeway", "crosswindOffset"]

/-- The rejection sampler for the downwind perturbation of one particle
in seed_leeway, with the loop condition read as the adjacent comment
intends (avoid negative downwind slopes): draw sample k, set
eps = sample * dwstd, and redraw while slope + eps/20 < 0.  The while
loop of the source has no iteration bound, so the embedding is indexed
by fuel; fuel exhaustion (the loop still running) yields none. -/
def drawEpsAux (slope dwstd : ℚ) (samples : ℕ → ℚ) : ℕ → ℕ → Option ℚ
  | _, 0 => none
  | k, fuel + 1 =>
    if slope + samples k * dwstd / 20 < 0 then drawEpsAux slope dwstd samples (k + 1) fuel
    else some (samples k * dwstd)

/-- The rejection sampler started at the first random draw. -/
def drawEps (slope dwstd : ℚ) (samples : ℕ → ℚ) (fuel : ℕ) : Option ℚ :=
  drawEpsAux slope dwstd samples 0 fuel

/-- Model of pyproj Geod.npts as called in seed_leeway, line 184: given
two endpoints and a count, npts returns that many equally spaced
intermediate points along the geodesic, excluding both endpoints, the
k-th at the interior fraction (k + 1) / (count + 1) of the way.  The
path between the endpoints is modelled affinely in (lon, lat).  The
model is exact along the equator (where the WGS84 geodesic is the
equator and longitude is affine in arc length) and for coincident
endpoints (where the path is constant); elsewhere the development
relies only on what the affine path shares with the real geodesic
parametrisation: the generated points sit at interior fractions of an
injective path from one endpoint to the other, so for distinct
endpoints they coincide with neither endpoint as positions (no claim is
made about individual coordinates such as longitude, which a
pole-crossing geodesic can share with its endpoints), and for
coincident endpoints they all equal that point. -/
def geod_npts (lon lat lon1 lat1 : ℚ) (number : ℕ) : List (ℚ × ℚ) :=
  (List.range number).map fun (k : ℕ) =>
    (lon + (lon1 - lon) * ((k : ℚ) + 1) / ((number : ℚ) + 1),
     lat + (lat1 - lat) * ((k : ℚ) + 1) / ((number : ℚ) + 1))

/-- Particle status values of the simulation (status_colors of the
source lists initial, active, missing_data, stranded, evaporated,
dispersed). -/
inductive PStatus where
  | initial
  | active
  | missing_data
  | stranded
  | evaporated
  | dispersed
  deriving DecidableEq, Repr

/-- The per-particle state that the update pipeline touches: position,
status and age. -/
structure Particle where
  lon : ℚ
  lat : ℚ
  status : PStatus
  age_seconds : ℚ
  deriving DecidableEq, Repr

/-- Modelled from the spec: update_positions of the external base class
OpenDriftSimulation (not under src/) advects each still-active particle
by the given velocity over the timestep; only active particles are
displaced by the updater. -/
def updatePositions (dt : ℚ) (vel : ℚ × ℚ → ℚ × ℚ) (ps : List Particle) : List Particle :=
  ps.map fun p =>
    if p.status = PStatus.active then
      { p with lon := p.lon + dt * (vel (p.lon, p.lat)).1,
               lat := p.lat + dt * (vel (p.lon, p.lat)).2 }
    else p

/-- Modelled from the spec: deactivate_elements of the external base
class marks every active particle whose current position satisfies the
indicator with the given terminal status. -/
def deactivateElements (cond : ℚ × ℚ → Bool) (reason : PStatus) (ps : List Particle) : List Particle :=
  ps.map fun p =>
    if p.status = PStatus.active ∧ cond (p.lon, p.lat) = true then
      { p with status := reason }
    else p

/-- The stage pipeline of Leeway.update, lines 206-229, under the
INTENDED attribute bindings of the leeway-velocity expression: age
increment of the whole ensemble, leeway advection of active particles,
stranding of active particles whose post-leeway position lies on land,
then current advection of the particles still active.  The literal
code never reaches the advection stages: the velocity expression of
lines 214-218 reads nonexistent element attributes and raises
AttributeError first (updateLiteral below embeds that; see also the
attribute facts around updateDownwindAttrNames).  Here the
per-particle leeway and current velocities and the land mask are
supplied as total functions of position, and the environment sampling
of the external framework is modelled from the spec, which has the
stranding check sample the land mask at the post-leeway-advection
position. -/
def leewayUpdate (dt : ℚ) (leewayVel currentVel : ℚ × ℚ → ℚ × ℚ)
    (landMask : ℚ × ℚ → Bool) (ps : List Particle) : List Particle :=
  updatePositions dt currentVel
    (deactivateElements landMask PStatus.stranded
      (updatePositions dt leewayVel
        (ps.map fun p => { p with age_seconds := p.age_seconds + dt })))

/-- The literal Leeway.update of lines 206-229 at statement
granularity: the age increment of line 206 executes first and mutates
the ensemble in place; the downwind and crosswind expressions of lines
214-218 then read the element attributes (downwindSlope, epsilon,
downwindOffset, downwindEpsilon, orientation, crosswindLeeway,
crosswindOffset), and a read of a name outside the element variables
raises AttributeError, aborting the call with the ensemble aged but
neither advected nor stranded; only if every attribute read succeeds
do the advection, stranding and current stages run (the pipeline
leewayUpdate).  Returns the exception outcome of the call together
with the ensemble state when it ends. -/
def updateLiteral (dt : ℚ) (leewayVel currentVel : ℚ × ℚ → ℚ × ℚ)
    (landMask : ℚ × ℚ → Bool) (ps : List Particle) :
    Except PyErr Unit × List Particle :=
  let aged := ps.map fun p => { p with age_seconds := p.age_seconds + dt }
  if (updateDownwindAttrNames ++ updateCrosswindAttrNames).all
      (fun a => allElementVariableNames.contains a) then
    (Except.ok (), updatePositions dt currentVel
      (deactivateElements landMask PStatus.stranded
        (updatePositions dt leewayVel aged)))
  else (Except.error PyErr.attributeError, aged)

/-- Whitespace splitting as the Python str.split() with no argument
behaves: split on runs of whitespace, dropping empty fields.  Lines are
embedded as character lists; cur accumulates the current token in
reverse. -/
def splitWSAux (cur : List Char) : List Char → List (List Char)
  | [] => if cur = [] then [] else [cur.reverse]
  | c :: cs =>
    if c.isWhitespace then
      if cur = [] then splitWSAux [] cs else cur.reverse :: splitWSAux [] cs
    else splitWSAux (c :: cur) cs

/-- Python line.split() with no argument. -/
def splitWS (l : List Char) : List (List Char) :=
  splitWSAux [] l

/-- Python line.strip() is empty exactly when the line consists of
whitespace only. -/
def isBlankLine (l : List Char) : Bool :=
  l.all Char.isWhitespace

/-- Accumulates a run of leading decimal digits: returns the value read
so far, the number of digits consumed, and the rest of the characters. -/
def takeDigitsAux (acc n : ℕ) : List Char → ℕ × ℕ × List Char
  | [] => (acc, n, [])
  | c :: cs =>
    if c.isDigit then takeDigitsAux (10 * acc + (c.toNat - 48)) (n + 1) cs
    else (acc, n, c :: cs)

/-- Python float(token) on a whitespace-free token, modelled over the
rationals: optional sign, digits with an optional fractional part (at
least one digit overall), and an optional decimal exponent.  Returns
none when the token is not parseable as a float. -/
def pyFloat (s : List Char) : Option ℚ :=
  let p1 := match s with
    | '-' :: r => (true, r)
    | '+' :: r => (false, r)
    | cs => (false, cs)
  let ipart := takeDigitsAux 0 0 p1.2
  let fpart := match ipart.2.2 with
    | '.' :: r => takeDigitsAux 0 0 r
    | cs => (0, 0, cs)
  if ipart.2.1 + fpart.2.1 = 0 then none
  else
    let mant : ℚ := (ipart.1 : ℚ) + (fpart.1 : ℚ) / ((10 ^ fpart.2.1 : ℕ) : ℚ)
    let signed : ℚ := if p1.1 then -mant else mant
    match fpart.2.2 with
    | [] => some signed
    | e :: r =>
      if e = 'e' ∨ e = 'E' then
        let ep := match r with
          | '-' :: r2 => (true, r2)
          | '+' :: r2 => (false, r2)
          | r2 => (false, r2)
        let epart := takeDigitsAux 0 0 ep.2
        if epart.2.1 = 0 ∨ epart.2.2 ≠ [] then none
        else if ep.1 then some (signed / ((10 ^ epart.1 : ℕ) : ℚ))
        else some (signed * ((10 ^ epart.1 : ℕ) : ℚ))
      else none

/-- The list comprehension arr = [float(x) for x in line.split()]: every
token must parse as a float, otherwise a ValueError is raised (modelled
by none). -/
def pyFloats (toks : List (List Char)) : Option (List ℚ) :=
  toks.mapM pyFloat

/-- One record of the leewayprop table: the props dict built for each
object type in Leeway.__init__, lines 100-108 of the source. -/
structure ObjProps where
  OBJNUMBER : ℕ
  Description : List Char
  DWSLOPE : ℚ
  DWOFFSET : ℚ
  DWSTD : ℚ
  CWRSLOPE : ℚ
  CWROFFSET : ℚ
  CWRSTD : ℚ
  CWLSLOPE : ℚ
  CWLOFFSET : ℚ
  CWLSTD : ℚ
  deriving DecidableEq, Repr

/-- Builds the props record for the i-th object type from its
description line and the nine-coefficient array (arr has been checked
to hold at least nine entries). -/
def mkProps (i : ℕ) (description : List Char) (arr : List ℚ) : ObjProps :=
  { OBJNUMBER := i, Description := description,
    DWSLOPE := arr.getD 0 0, DWOFFSET := arr.getD 1 0, DWSTD := arr.getD 2 0,
    CWRSLOPE := arr.getD 3 0, CWROFFSET := arr.getD 4 0, CWRSTD := arr.getD 5 0,
    CWLSLOPE := arr.getD 6 0, CWLOFFSET := arr.getD 7 0, CWLSTD := arr.getD 8 0 }

/-- The property-table loop of Leeway.__init__, lines 89-108, embedded
with its Python failure modes: the loop runs over the iteration counter
(first argument, counting down; i is the record index counting up);
a missing key line raises IndexError; a blank key line ends parsing
normally; a missing coefficient line raises IndexError; an unparseable
float token raises ValueError; a missing description line raises
IndexError; a coefficient line of fewer than nine floats raises
IndexError (arr[8] out of range). -/
def parseFrom (objproptxt : List (List Char)) :
    ℕ → ℕ → Except PyErr (List (List Char × ObjProps))
  | 0, _ => Except.ok []
  | r + 1, i =>
    match objproptxt.get? (3 * i) with
    | none => Except.error PyErr.indexError
    | some l0 =>
      if isBlankLine l0 then Except.ok []
      else
        match (splitWS l0).head? with
        | none => Except.error PyErr.indexError
        | some objKey =>
          match objproptxt.get? (3 * i + 2) with
          | none => Except.error PyErr.indexError
          | some l2 =>
            match pyFloats (splitWS l2) with
            | none => Except.error PyErr.valueError
            | some arr =>
              match objproptxt.get? (3 * i + 1) with
              | none => Except.error PyErr.indexError
              | some l1 =>
                if arr.length < 9 then Except.error PyErr.indexError
                else
                  match parseFrom objproptxt r (i + 1) with
                  | Except.ok rest => Except.ok ((objKey, mkProps i l1 arr) :: rest)
                  | Except.error e => Except.error e

/-- Parsing the property table text: the loop of Leeway.__init__ runs
for i in xrange(len(objproptxt) // 3 + 1). -/
def parseObjProps (objproptxt : List (List Char)) :
    Except PyErr (List (List Char × ObjProps)) :=
  parseFrom objproptxt (objproptxt.length / 3 + 1) 0

/-- Wind-frame to geographic rotation of Leeway.update, line 219:
x_leeway = dwl_leeway * cos(winddir) + cwl_leeway * sin(winddir). -/
noncomputable def x_leeway (dwl cwl winddir : ℝ) : ℝ :=
  dwl * Real.cos winddir + cwl * Real.sin winddir

/-- Wind-frame to geographic rotation of Leeway.update, line 220:
y_leeway = -dwl_leeway * sin(winddir) + cwl_leeway * cos(winddir). -/
noncomputable def y_leeway (dwl cwl winddir : ℝ) : ℝ :=
  -dwl * Real.sin winddir + cwl * Real.cos winddir

/-- C1, counterexample: the claim says the crosswind leeway speed of a
RIGHT-oriented particle is +1 times (crosswindSlope * windspeed +
crosswindOffset).  The source multiplies by the raw orientation value,
which is 0 for RIGHT, so with slope 1, windspeed 1 and offset 0 the code
yields 0 while the claimed formula yields 1. -/
theorem c1_counterexample :
    cwl_leeway (orientValue Orient.RIGHT) 1 1 0 = 0 ∧
    cwl_spec Orient.RIGHT 1 1 0 = 1 ∧
    cwl_leeway (orientValue Orient.RIGHT) 1 1 0 ≠ cwl_spec Orient.RIGHT 1 1 0 := by
  refine ⟨by norm_num [cwl_leeway, orientValue], by norm_num [cwl_spec, orientSignSpec], ?_⟩
  norm_num [cwl_leeway, cwl_spec, orientValue, orientSignSpec]

/-- C1, amended: update computes the crosswind leeway speed as
orientation * (crosswindSlope * windspeed + crosswindOffset) with the
raw encoding RIGHT = 0 and LEFT = 1, so every RIGHT-oriented particle
gets crosswind speed 0 and every LEFT-oriented particle gets
crosswindSlope * windspeed + crosswindOffset. -/
theorem c1_crosswind_raw_orientation (s w c : ℚ) :
    cwl_leeway (orientValue Orient.RIGHT) s w c = 0 ∧
    cwl_leeway (orientValue Orient.LEFT) s w c = s * w + c := by
  constructor <;> simp [cwl_leeway, orientValue]

/-- C2: the name dwslo tested by the rejection loop of seed_leeway is
bound neither in the function body nor at module level, so the loop
raises NameError on its first evaluation and seeding never completes;
under the evident intent (dwslo is the downwind slope of the object
type), whenever the rejection sampler returns a perturbation eps it
satisfies the claimed invariant slope + eps / 20 >= 0, and update never
writes the coefficient fields. -/
theorem c2_dwslo_unbound_and_rejection_invariant :
    "dwslo" ∉ seedLeewayBoundNames ++ leewayModuleNames ∧
    (∀ slope dwstd : ℚ, ∀ samples : ℕ → ℚ, ∀ k fuel : ℕ, ∀ eps : ℚ,
      drawEpsAux slope dwstd samples k fuel = some eps → 0 ≤ slope + eps / 20) := by
  constructor
  · decide
  · intro slope dwstd samples k fuel
    induction fuel generalizing k with
    | zero => intro eps h; exact absurd h (by simp [drawEpsAux])
    | succ n ih =>
      intro eps h
      simp only [drawEpsAux] at h
      split at h
      · exact ih (k + 1) eps h
      · rename_i hc
        rw [Option.some.injEq] at h
        subst h
        exact not_lt.mp hc

/-- C2, witness: with slope 1 and standard deviation 0 the sampler
accepts the first draw, eps = 0, and the invariant holds there. -/
theorem c2_witness : (0 : ℚ) ≤ 1 + 0 / 20 :=
  c2_dwslo_unbound_and_rejection_invariant.2 1 0 (fun _ => 0) 0 1 0 (by norm_num [drawEpsAux])

/-- C3: the rejection loop of seed_leeway has no retry bound: with a
downwind slope of -1 and standard deviation 0 every candidate fails the
acceptance test, so the loop never returns for any amount of fuel (the
while loop runs forever); moreover no CoefficientSamplingError class is
defined anywhere in the module, so the claimed bounded-retry failure
cannot occur. -/
theorem c3_rejection_loop_unbounded :
    (∀ samples : ℕ → ℚ, ∀ k fuel : ℕ, drawEpsAux (-1) 0 samples k fuel = none) ∧
    "CoefficientSamplingError" ∉ leewayClassNames := by
  constructor
  · intro samples k fuel
    induction fuel generalizing k with
    | zero => rfl
    | succ n ih =>
      have hc : (-1 : ℚ) + samples k * 0 / 20 < 0 := by norm_num
      simp only [drawEpsAux, if_pos hc]
      exact ih (k + 1)
  · decide

/-- C4: the release-time computation of seed_leeway evaluates
dt = (time1 - time) / (number - 1) eagerly, so number = 1 divides by
zero and seeding fails instead of producing the single time, while for
a count of 5 over four hours it produces the five claimed hourly
times. -/
theorem c4_seed_times_eval :
    seedTimes 0 14400 5 = Except.ok [0, 3600, 7200, 10800, 14400] ∧
    seedTimes 0 0 1 = Except.error PyErr.zeroDivisionError := by
  constructor
  · unfold seedTimes
    norm_num [List.range_succ]
  · rfl

/-- C6: the downwind-speed expression of update reads the element
attributes epsilon and downwindEpsilon, neither of which exists among
the element variables (the only epsilon-like field is downwindEps), so
update raises AttributeError instead of computing the claimed formula;
with both reads bound to downwindEps the expression is exactly the
claimed dwl_leeway formula. -/
theorem c6_downwind_attrs_missing :
    "epsilon" ∈ updateDownwindAttrNames ∧
    "downwindEpsilon" ∈ updateDownwindAttrNames ∧
    "epsilon" ∉ allElementVariableNames ∧
    "downwindEpsilon" ∉ allElementVariableNames ∧
    "downwindEps" ∈ leewayObjVariableNames ∧
    "crosswindLeeway" ∈ updateCrosswindAttrNames ∧
    "crosswindLeeway" ∉ allElementVariableNames := by
  refine ⟨by decide, by decide, by decide, by decide, by decide, by decide, by decide⟩

/-- C10: the wind-frame to geographic rotation of update preserves the
squared magnitude of the leeway velocity: for every downwind and
crosswind speed and every wind direction,
x_leeway^2 + y_leeway^2 = dwl^2 + cwl^2. -/
theorem c10_rotation_preserves_speed (dwl cwl winddir : ℝ) :
    x_leeway dwl cwl winddir ^ 2 + y_leeway dwl cwl winddir ^ 2 = dwl ^ 2 + cwl ^ 2 := by
  have h := Real.sin_sq_add_cos_sq winddir
  simp only [x_leeway, y_leeway]
  linear_combination (dwl ^ 2 + cwl ^ 2) * h

/-- C5, counterexample: seeding from (0, 0) to (3, 0) with count 2
generates the positions (1, 0) and (2, 0): the first generated position
is not the release point (0, 0), because Geod.npts returns intermediate
points that exclude both endpoints. -/
theorem c5_counterexample :
    geod_npts 0 0 3 0 2 = [(1, 0), (2, 0)] ∧
    ((1 : ℚ), (0 : ℚ)) ≠ ((0 : ℚ), (0 : ℚ)) := by
  constructor
  · unfold geod_npts
    norm_num [List.range_succ]
  · norm_num

/-- C5, amended: the count generated release positions are equally
spaced intermediate points strictly between (lon, lat) and
(lon1, lat1), excluding both endpoints: when the two endpoints
coincide, every generated position equals that point, and when the two
endpoints differ (in longitude or in latitude or both), every
generated position is distinct from both endpoint positions, so in
particular the first generated position is not the release point and
the last is not the second point. -/
theorem c5_npts_interior_points (lon lat lon1 lat1 : ℚ) (n : ℕ) :
    (lon1 = lon → lat1 = lat → ∀ q ∈ geod_npts lon lat lon1 lat1 n, q = (lon, lat)) ∧
    ((lon1, lat1) ≠ (lon, lat) → ∀ q ∈ geod_npts lon lat lon1 lat1 n,
      q ≠ (lon, lat) ∧ q ≠ (lon1, lat1)) := by
  constructor
  · intro h1 h2 q hq
    subst h1
    subst h2
    unfold geod_npts at hq
    obtain ⟨k, _, rfl⟩ := List.mem_map.mp hq
    simp
  · intro hne q hq
    unfold geod_npts at hq
    obtain ⟨k, hkmem, rfl⟩ := List.mem_map.mp hq
    have hk : k < n := List.mem_range.mp hkmem
    have hk0 : (0 : ℚ) ≤ (k : ℚ) := Nat.cast_nonneg k
    have hn0 : (0 : ℚ) ≤ (n : ℚ) := Nat.cast_nonneg n
    have hk1p : (0 : ℚ) < (k : ℚ) + 1 := by linarith
    have hn1p : (0 : ℚ) < (n : ℚ) + 1 := by linarith
    have hkn : ((k : ℚ) + 1) ≠ ((n : ℚ) + 1) := by
      intro h
      have h2 : (k : ℚ) = (n : ℚ) := by linarith
      have h3 : k = n := by exact_mod_cast h2
      exact absurd h3 (Nat.ne_of_lt hk)
    constructor
    · intro heq
      rw [Prod.mk.injEq] at heq
      obtain ⟨h1, h2⟩ := heq
      have e1 : (lon1 - lon) * ((k : ℚ) + 1) = 0 := by
        have h1a : (lon1 - lon) * ((k : ℚ) + 1) / ((n : ℚ) + 1) = 0 := by linarith
        have h1b := (div_eq_iff hn1p.ne').mp h1a
        linarith
      have e2 : (lat1 - lat) * ((k : ℚ) + 1) = 0 := by
        have h2a : (lat1 - lat) * ((k : ℚ) + 1) / ((n : ℚ) + 1) = 0 := by linarith
        have h2b := (div_eq_iff hn1p.ne').mp h2a
        linarith
      have hlon : lon1 = lon := by
        rcases mul_eq_zero.mp e1 with h | h
        · linarith
        · exact absurd h hk1p.ne'
      have hlat : lat1 = lat := by
        rcases mul_eq_zero.mp e2 with h | h
        · linarith
        · exact absurd h hk1p.ne'
      exact hne (by rw [Prod.mk.injEq]; exact ⟨hlon, hlat⟩)
    · intro heq
      rw [Prod.mk.injEq] at heq
      obtain ⟨h1, h2⟩ := heq
      have e1 : (lon1 - lon) * ((k : ℚ) + 1) = (lon1 - lon) * ((n : ℚ) + 1) := by
        have h1a : (lon1 - lon) * ((k : ℚ) + 1) / ((n : ℚ) + 1) = lon1 - lon := by
          linarith
        have h1b := (div_eq_iff hn1p.ne').mp h1a
        linarith
      have e2 : (lat1 - lat) * ((k : ℚ) + 1) = (lat1 - lat) * ((n : ℚ) + 1) := by
        have h2a : (lat1 - lat) * ((k : ℚ) + 1) / ((n : ℚ) + 1) = lat1 - lat := by
          linarith
        have h2b := (div_eq_iff hn1p.ne').mp h2a
        linarith
      have hlon : lon1 = lon := by
        by_contra hd
        exact hkn (mul_left_cancel₀ (sub_ne_zero.mpr hd) e1)
      have hlat : lat1 = lat := by
        by_contra hd
        exact hkn (mul_left_cancel₀ (sub_ne_zero.mpr hd) e2)
      exact hne (by rw [Prod.mk.injEq]; exact ⟨hlon, hlat⟩)

/-- C5, witness: for the meridional release segment from (0, 0) to
(0, 3) with count 2 (endpoints differing only in latitude), the first
generated position (0, 1) coincides with neither endpoint. -/
theorem c5_witness :
    ((0 : ℚ), (1 : ℚ)) ≠ ((0 : ℚ), (0 : ℚ)) ∧
    ((0 : ℚ), (1 : ℚ)) ≠ ((0 : ℚ), (3 : ℚ)) :=
  (c5_npts_interior_points 0 0 0 3 2).2 (by simp) (0, 1)
    (by
      have h : geod_npts 0 0 0 3 2 = [(0, 1), (0, 2)] := by
        unfold geod_npts
        norm_num [List.range_succ]
      rw [h]
      simp)

/-- Helper for the parser: whenever the record loop starting at record
index i succeeds, the j-th returned record carries OBJNUMBER i + j. -/
theorem parseFrom_objnumber (txt : List (List Char)) :
    ∀ r i recs, parseFrom txt r i = Except.ok recs →
      ∀ j rec, recs.get? j = some rec → rec.2.OBJNUMBER = i + j := by
  intro r
  induction r with
  | zero =>
    intro i recs h j rec hj
    simp only [parseFrom] at h
    cases h
    simp at hj
  | succ n ih =>
    intro i recs h j rec hj
    simp only [parseFrom] at h
    split at h
    · simp at h
    · split at h
      · cases h
        simp at hj
      · split at h
        · simp at h
        · split at h
          · simp at h
          · split at h
            · simp at h
            · split at h
              · simp at h
              · split at h
                · simp at h
                · split at h
                  · rename_i rest heq
                    cases h
                    cases j with
                    | zero =>
                      simp only [List.get?_cons_zero, Option.some.injEq] at hj
                      subst hj
                      simp [mkProps]
                    | succ m =>
                      simp only [List.get?_cons_succ] at hj
                      have hrec := ih (i + 1) rest heq m rec hj
                      omega
                  · simp at h

/-- C7, amended: a coefficient line with fewer than nine float tokens
makes loading fail with an IndexError (not a PropertyTableParseError,
which the code never defines), a token not parseable as a float makes
it fail with a ValueError, a blank key line stops parsing normally,
a well-formed table whose text ends without a blank key line raises
IndexError (the loop over len // 3 + 1 records reads past the end), and
on success the j-th record of the table carries OBJNUMBER j. -/
theorem c7_parse_amended :
    (∀ txt recs, parseObjProps txt = Except.ok recs →
      ∀ j rec, recs.get? j = some rec → rec.2.OBJNUMBER = j) ∧
    parseObjProps
        ["KEY1 obj".toList, "some object".toList, "1 2 3 4 5 6 7 8".toList] =
      Except.error PyErr.indexError ∧
    parseObjProps
        ["KEY1 obj".toList, "some object".toList, "1 2 3 4 5 6 7 8 bad".toList] =
      Except.error PyErr.valueError ∧
    parseObjProps ["".toList, "junk".toList] = Except.ok [] ∧
    parseObjProps
        ["KEY1 obj".toList, "some object".toList, "1 2 3 4 5 6 7 8 9".toList] =
      Except.error PyErr.indexError := by
  refine ⟨?_, rfl, rfl, rfl, rfl⟩
  intro txt recs h j rec hj
  simpa using parseFrom_objnumber txt (txt.length / 3 + 1) 0 recs h j rec hj

/-- C7, counterexample: the claim names a PropertyTableParseError, but
on a record whose coefficient line has only eight tokens the loader
fails with an IndexError, which is not that error. -/
theorem c7_counterexample :
    parseObjProps
        ["KEY1 obj".toList, "some object".toList, "1 2 3 4 5 6 7 8".toList] =
      Except.error PyErr.indexError ∧
    PyErr.indexError ≠ PyErr.propertyTableParseError := by
  exact ⟨rfl, by decide⟩

/-- C7, witness: a one-record table terminated by a blank line parses
successfully and its record carries OBJNUMBER 0. -/
theorem c7_witness :
    (mkProps 0 "person in water".toList [1, 2, 3, 4, 5, 6, 7, 8, 9]).OBJNUMBER = 0 :=
  c7_parse_amended.1
    ["PIW-1 obj".toList, "person in water".toList,
     "1 2 3 4 5 6 7 8 9".toList, " ".toList]
    [("PIW-1".toList, mkProps 0 "person in water".toList [1, 2, 3, 4, 5, 6, 7, 8, 9])]
    (by
      simp [parseObjProps, parseFrom, splitWS, splitWSAux, isBlankLine,
            pyFloats, List.mapM.loop, pyFloat, takeDigitsAux, mkProps])
    0 _ rfl

/-- C8: the literal update never strands a particle: because the
leeway-velocity expression reads element attributes that do not exist,
every update call aborts with AttributeError right after the age
increment, with the ensemble aged but neither advected nor stranded;
under the intended attribute bindings the stage pipeline does satisfy
the claim: a particle active at the start of update whose post-leeway
position samples the land mask as 1 is stranded when the call returns,
at exactly the post-leeway position, untouched by the current stage. -/
theorem c8_update_crash_and_intended_stranding :
    (∀ dt : ℚ, ∀ lv cv : ℚ × ℚ → ℚ × ℚ, ∀ mask : ℚ × ℚ → Bool, ∀ ps : List Particle,
      updateLiteral dt lv cv mask ps =
        (Except.error PyErr.attributeError,
         ps.map fun p => { p with age_seconds := p.age_seconds + dt })) ∧
    (∀ dt : ℚ, ∀ lv cv : ℚ × ℚ → ℚ × ℚ, ∀ mask : ℚ × ℚ → Bool, ∀ ps : List Particle,
      ∀ i : ℕ, ∀ p : Particle,
      ps.get? i = some p → p.status = PStatus.active →
      mask (p.lon + dt * (lv (p.lon, p.lat)).1,
            p.lat + dt * (lv (p.lon, p.lat)).2) = true →
      (leewayUpdate dt lv cv mask ps).get? i =
        some { lon := p.lon + dt * (lv (p.lon, p.lat)).1,
               lat := p.lat + dt * (lv (p.lon, p.lat)).2,
               status := PStatus.stranded,
               age_seconds := p.age_seconds + dt }) := by
  constructor
  · intro dt lv cv mask ps
    have hcond : ((updateDownwindAttrNames ++ updateCrosswindAttrNames).all
        (fun a => allElementVariableNames.contains a)) = false := by decide
    simp [updateLiteral, hcond]
    decide
  · intro dt lv cv mask ps i p hp hact hland
    unfold leewayUpdate updatePositions deactivateElements
    simp only [List.get?_map, hp, Option.map_some']
    simp [hact, hland]

/-- C8, witness: one active particle at the origin with intended leeway
velocity (1, 0), timestep 1 and a land mask that is 1 exactly at
longitude 1: the pipeline strands the particle at (1, 0) with age 1,
untouched by the current velocity (7, 7). -/
theorem c8_witness :
    (leewayUpdate 1 (fun _ => (1, 0)) (fun _ => (7, 7))
        (fun q => decide (q.1 = 1))
        [{ lon := 0, lat := 0, status := PStatus.active, age_seconds := 0 }]).get? 0 =
      some { lon := (0 : ℚ) + 1 * ((1 : ℚ), (0 : ℚ)).1,
             lat := (0 : ℚ) + 1 * ((1 : ℚ), (0 : ℚ)).2,
             status := PStatus.stranded, age_seconds := (0 : ℚ) + 1 } :=
  c8_update_crash_and_intended_stranding.2 1 (fun _ => (1, 0)) (fun _ => (7, 7))
    (fun q => decide (q.1 = 1))
    [{ lon := 0, lat := 0, status := PStatus.active, age_seconds := 0 }] 0
    { lon := 0, lat := 0, status := PStatus.active, age_seconds := 0 }
    rfl rfl (by norm_num)

/-- C9: one update call increases age_seconds by exactly the timestep
duration for every particle of the ensemble, whatever its status: the
ages after update are pointwise the ages before plus dt. -/
theorem c9_age_increment_all (dt : ℚ) (lv cv : ℚ × ℚ → ℚ × ℚ)
    (mask : ℚ × ℚ → Bool) (ps : List Particle) :
    (leewayUpdate dt lv cv mask ps).map Particle.age_seconds =
      ps.map fun p => p.age_seconds + dt := by
  unfold leewayUpdate updatePositions deactivateElements
  simp only [List.map_map]
  congr 1
  funext p
  simp only [Function.comp]
  split_ifs <;> rfl

end Leeway
